import Mathlib

/-!
Shallow embedding of `src/index.js` of the jest-image-snapshot fork: snapshot
identifier resolution (`createSnapshotIdentifier`), run-state bookkeeping
(`updateSnapshotState` / `checkResult`), the failure-message renderer, and the
matcher body produced by `configureToMatchImageSnapshot`, including the
interactive review step.

Modelling conventions:
* JS `Map` objects (`snapshotState._counters`, the module-level `timesCalled`
  ledger) are association lists `List (String × Nat)` with `mapGet`/`mapSet`.
* The process globals (`global.UNSTABLE_SKIP_REPORTING`,
  `global[Symbol.for('RETRY_TIMES')]` after `parseInt(..) || 0`, `process.env`)
  are explicit parameters (`skipReporting : Bool`, `retryTimes : Nat`,
  `MsgEnv`).
* The file system is the set of existing paths, `List String`; the external
  image-diff engine is an oracle parameter `compare : CompareArgs → FsState →
  ComparisonResult × FsState`.
* The two enquirer prompt races (`Promise.race` against 60-second timers) are
  modelled by their outcomes `viewAction updateAction : Bool`
  (`true` = confirmed before the timer, `false` = declined or timed out),
  which is exactly how the source consumes them.
* Thrown errors are `Except.error` carrying the message string.
* JS numbers in the diff result are modelled as `ℚ`; the decimal rendering of
  the terminating decimals arising here coincides with JS number printing
  (e.g. `0.023 * 100` is exactly the double `2.3`, printed `"2.3"`).
-/

namespace ImageSnapshot

/-- A JS `Map` from strings to numbers, as an association list. -/
abbrev Ledger := List (String × Nat)

/-- `Map.prototype.get`: first binding of the key, or `undefined`. -/
def mapGet : Ledger → String → Option Nat
  | [], _ => Option.none
  | (k, v) :: rest, key => if k = key then some v else mapGet rest key

/-- `Map.prototype.set`: replace the binding in place, or append a new one. -/
def mapSet : Ledger → String → Nat → Ledger
  | [], key, v => [(key, v)]
  | (k, w) :: rest, key, v =>
    if k = key then (key, v) :: rest else (k, w) :: mapSet rest key v

/-- The set of files that exist on disk (paths only; contents are opaque). -/
abbrev FsState := List String

/-- `fs.existsSync` (and the intended meaning of the `fs.syncExists` call at
line 248, see the C5 analysis). -/
def fsExists (fs : FsState) (p : String) : Bool := fs.contains p

/-- `fs.renameSync old new`: `old` disappears, `new` exists. -/
def fsRename (fs : FsState) (old new : String) : FsState := new :: fs.erase old

/-- `snapshotState._updateSnapshot` (`'none' | 'new' | 'all'`). -/
inductive UpdateMode where
  | none
  | newOnly
  | all
deriving DecidableEq

/-- Jest's `snapshotState` as touched by this module: the four outcome
counters, the `_counters` per-test invocation map, and `_updateSnapshot`. -/
structure RunState where
  matched : Nat
  added : Nat
  updated : Nat
  unmatched : Nat
  counters : Ledger
  updateSnapshotMode : UpdateMode
deriving DecidableEq

/-- The partial snapshot-state objects passed to `updateSnapshotState`
(each call site passes exactly one field). -/
inductive StatePatch where
  | matched (n : Nat)
  | added (n : Nat)
  | updated (n : Nat)
  | unmatched (n : Nat)
  | counters (m : Ledger)

/-- `lodash merge` of one of the partial objects above into the state. -/
def mergeState (s : RunState) : StatePatch → RunState
  | .matched n => { s with matched := n }
  | .added n => { s with added := n }
  | .updated n => { s with updated := n }
  | .unmatched n => { s with unmatched := n }
  | .counters m => { s with counters := m }

/-- `updateSnapshotState` (src lines 32–37): a no-op when the process-wide
`global.UNSTABLE_SKIP_REPORTING` flag (here `skipReporting`) is set, else a
`lodash merge` of the partial state into the original. -/
def updateSnapshotState (skipReporting : Bool) (originalSnapshotState : RunState)
    (partialSnapshotState : StatePatch) : RunState :=
  if skipReporting then originalSnapshotState
  else mergeState originalSnapshotState partialSnapshotState

/-- Line 197 of the source:
`updateSnapshotState(snapshotState, { _counters: snapshotState._counters.set(name, (get(name) || 0) + 1) })`.
`Map.prototype.set` mutates the map in place *while the argument object is
being built*, i.e. before `updateSnapshotState` runs its skip check, and
`snapshotState._counters` aliases that same map.  So the state handed to
`updateSnapshotState` as `originalSnapshotState` already carries the updated
map, even when the skip flag makes the merge a no-op. -/
def recordInvocation (skipReporting : Bool) (snapshotState : RunState)
    (currentTestName : String) : RunState :=
  let m := mapSet snapshotState.counters currentTestName
    ((mapGet snapshotState.counters currentTestName).getD 0 + 1)
  updateSnapshotState skipReporting { snapshotState with counters := m }
    (StatePatch.counters m)

/-! ### String utilities (JS semantics) -/

/-- Decimal digits of the fractional part `r / d` (with fuel; every value the
source prints here is a terminating decimal well inside the fuel). -/
def fracDigitsAux : Nat → Nat → Nat → List Char
  | 0, _, _ => []
  | _ + 1, 0, _ => []
  | fuel + 1, r, d =>
    let r10 := r * 10
    Char.ofNat (48 + r10 / d) :: fracDigitsAux fuel (r10 % d) d

/-- JS number-to-string for the (terminating-decimal) rationals produced by
`diffRatio * 100`: integer part, then `.` and fractional digits if any. -/
def decStr (q : ℚ) : String :=
  let sign := if q < 0 then "-" else ""
  let n := q.num.natAbs
  let d := q.den
  let ipart := n / d
  let r := n % d
  if r = 0 then sign ++ toString ipart
  else sign ++ toString ipart ++ "." ++ String.mk (fracDigitsAux 20 r d)

/-- Substring test on character lists (used to state "message contains"). -/
def listContains : List Char → List Char → Bool
  | [], pat => pat.isEmpty
  | c :: rest, pat => pat.isPrefixOf (c :: rest) || listContains rest pat

/-- `String.includes` from JS: `pat` occurs as a contiguous substring of `s`. -/
def strContainsB (s pat : String) : Bool := listContains s.data pat.data

/-- Worker for `jsSplit`: scan left to right, splitting at each
(non-overlapping) occurrence of `sep` and skipping past it.  The fuel is the
length of the text, which suffices since every step consumes at least one
character (`sep` is non-empty at every call site). -/
def jsSplitAux (sep : List Char) : Nat → List Char → List Char → List (List Char)
  | _, [], cur => [cur.reverse]
  | 0, s, cur => [cur.reverse ++ s]
  | fuel + 1, c :: rest, cur =>
    if sep.isPrefixOf (c :: rest) then
      cur.reverse :: jsSplitAux sep fuel ((c :: rest).drop sep.length) []
    else jsSplitAux sep fuel rest (c :: cur)

/-- `String.prototype.split` with a non-empty string separator (the source
only splits on `'...'` and `'/'`-like literals). -/
def jsSplit (s sep : String) : List String :=
  if sep = "" then [s]
  else (jsSplitAux sep.data s.data.length s.data []).map String.mk

/-- `String.prototype.replace` with a string pattern: replace the first
occurrence only. -/
def replaceFirstList : List Char → List Char → List Char → List Char
  | [], _, _ => []
  | c :: rest, pat, rep =>
    if pat.isPrefixOf (c :: rest) then rep ++ (c :: rest).drop pat.length
    else c :: replaceFirstList rest pat rep

/-- `s.replace(pat, rep)` (first occurrence, string pattern). -/
def jsReplaceFirst (s pat rep : String) : String :=
  String.mk (replaceFirstList s.data pat.data rep.data)

/-- The base64 alphabet used by `Buffer.toString('base64')`. -/
def b64Alphabet : List Char :=
  "ABCDEFGHIJKLMNOPQRSTUVWXYZabcdefghijklmnopqrstuvwxyz0123456789+/".data

/-- Character for a 6-bit group. -/
def b64Char (n : Nat) : Char := (b64Alphabet.getD n 'A')

/-- Base64 of a byte list, with `=` padding, as `Buffer.toString('base64')`. -/
def b64Encode : List Nat → String
  | [] => ""
  | [a] =>
    String.mk [b64Char (a / 4), b64Char (a % 4 * 16)] ++ "=="
  | [a, b] =>
    String.mk [b64Char (a / 4), b64Char (a % 4 * 16 + b / 16), b64Char (b % 16 * 4)] ++ "="
  | a :: b :: c :: rest =>
    String.mk [b64Char (a / 4), b64Char (a % 4 * 16 + b / 16),
      b64Char (b % 16 * 4 + c / 64), b64Char (c % 64)] ++ b64Encode rest

/-- `Buffer.from(s).toString('base64')` (UTF-8 bytes of `s`). -/
def jsBase64OfString (s : String) : String :=
  b64Encode (s.toUTF8.toList.map UInt8.toNat)

/-- One word of `lodash.kebabCase`: runs of letters and runs of digits are
separate words, an uppercase letter starts a new word (lowercased), and any
other character is a separator.  This matches lodash on the ASCII inputs the
matcher builds identifiers and directory names from. -/
def kebabWordsAux : List Char → List Char → List (List Char)
  | [], cur => if cur.isEmpty then [] else [cur.reverse]
  | c :: rest, cur =>
    if c.isLower || c.isDigit || c.isUpper then
      let cDigit := c.isDigit
      let cc := if c.isUpper then c.toLower else c
      match cur with
      | [] => kebabWordsAux rest [cc]
      | p :: ps =>
        if p.isDigit = cDigit && !c.isUpper then kebabWordsAux rest (cc :: p :: ps)
        else (p :: ps).reverse :: kebabWordsAux rest [cc]
    else
      if cur.isEmpty then kebabWordsAux rest []
      else cur.reverse :: kebabWordsAux rest []

/-- `lodash.kebabCase` (ASCII fragment; see `kebabWordsAux`). -/
def kebabCase (s : String) : String :=
  String.intercalate "-" ((kebabWordsAux s.data []).map String.mk)

/-- `path.join` for already-clean segments. -/
def pathJoin (parts : List String) : String := String.intercalate "/" parts

/-- `path.dirname` for `/`-separated paths. -/
def dirname (p : String) : String := pathJoin ((jsSplit p "/").dropLast)

/-- `path.basename` for `/`-separated paths. -/
def basename (p : String) : String := ((jsSplit p "/").getLast?).getD p

/-- Rendering of a possibly-`undefined` JS number inside a template string. -/
def jsShowOptNat : Option Nat → String
  | Option.none => "undefined"
  | some n => toString n

/-! ### Chalk (ANSI level 1 when colors are on, identity when off) -/

/-- `chalk.bold.red` at level 1, identity at level 0. -/
def chalkBoldRed (colors : Bool) (s : String) : String :=
  if colors then "\x1b[1m\x1b[31m" ++ s ++ "\x1b[39m\x1b[22m" else s

/-- `chalk.red` at level 1, identity at level 0. -/
def chalkRed (colors : Bool) (s : String) : String :=
  if colors then "\x1b[31m" ++ s ++ "\x1b[39m" else s

/-! ### Comparison results and the result classifier (`checkResult`) -/

/-- `result.imageDimensions`. -/
structure ImageDimensions where
  baselineWidth : Nat
  baselineHeight : Nat
  receivedWidth : Nat
  receivedHeight : Nat
deriving DecidableEq

/-- Fields of a `Compared` diff result (the object returned by the engine when
neither `updated` nor `added` is set). -/
structure ComparedData where
  pass : Bool
  diffRatio : ℚ
  diffPixelCount : Nat
  diffSize : Bool
  imageDimensions : ImageDimensions
  diffOutputPath : String
  imgSrcString : String
deriving DecidableEq

/-- The tagged outcome object consumed by `checkResult` (the source
duck-types on `result.updated` / `result.added`). -/
inductive ComparisonResult where
  | updated
  | added
  | compared (d : ComparedData)
deriving DecidableEq

/-- The `process.env` reads performed by the failure-message closure. -/
structure MsgEnv where
  termProgram : Option String
  enableInlineDiff : Bool
deriving DecidableEq

/-- The observable program state a message closure could touch: jest's
snapshot state, the module-level retry ledger, the file system, and the
environment it reads. -/
structure World where
  snapshotState : RunState
  ledger : Ledger
  fs : FsState
  env : MsgEnv
deriving DecidableEq

/-- `supportedInlineTerms.includes(process.env.TERM_PROGRAM) || 'ENABLE_INLINE_DIFF' in process.env`. -/
def inlineTermSupported (env : MsgEnv) : Bool :=
  (match env.termProgram with
   | some t => decide (t = "iTerm.app" ∨ t = "WezTerm")
   | Option.none => false) || env.enableInlineDiff

/-- The body of the lazily-evaluated failure-message closure built in
`checkResult` (src lines 73–96), as a pure function of the captured result
fields, the rendering flags, and the environment it reads when invoked. -/
def failureMessage (colors dumpDiffToConsole dumpInlineDiffToConsole allowSizeMismatch : Bool)
    (env : MsgEnv) (d : ComparedData) : String :=
  let differencePercentage := d.diffRatio * 100
  let bw := toString d.imageDimensions.baselineWidth
  let bh := toString d.imageDimensions.baselineHeight
  let rw := toString d.imageDimensions.receivedWidth
  let rh := toString d.imageDimensions.receivedHeight
  let pct := decStr differencePercentage
  let cnt := toString d.diffPixelCount
  let failure :=
    if d.diffSize && !allowSizeMismatch then
      "Expected image to be the same size as the snapshot (" ++ bw ++ "x" ++ bh ++
        "), but was different (" ++ rw ++ "x" ++ rh ++ ").\n"
    else
      "Expected image to match or be a close match to snapshot but was " ++ pct ++
        "% different from snapshot (" ++ cnt ++ " differing pixels).\n"
  let failure := failure ++ chalkBoldRed colors "See diff for details:" ++ " " ++
    chalkRed colors d.diffOutputPath
  if dumpInlineDiffToConsole && inlineTermSupported env then
    failure ++ "\n\n\t\x1b]1337;File=name=" ++ jsBase64OfString d.diffOutputPath ++
      ";inline=1;width=40:" ++
      jsReplaceFirst d.imgSrcString "data:image/png;base64," "" ++ "\x07\x1b\n\n"
  else if dumpDiffToConsole || dumpInlineDiffToConsole then
    failure ++ "\n" ++
      chalkBoldRed colors "Or paste below image diff string to your browser`s URL bar." ++
      "\n " ++ d.imgSrcString
  else failure

/-- What `checkResult` returns: the (possibly) updated snapshot state, the
`pass` verdict, and the message closure.  The closure is a state transformer
so that statements about its (absence of) side effects are expressible. -/
structure CheckOutcome where
  state : RunState
  pass : Bool
  message : World → String × World

/-- The initial `message = () => ''` closure. -/
def emptyMsg : World → String × World := fun w => ("", w)

/-- `undefined > retryTimes` is false; `currentRun > retryTimes` otherwise. -/
def jsOptGT : Option Nat → Nat → Bool
  | Option.none, _ => false
  | some c, r => c > r

/-- `checkResult` (src lines 39–104): classifies the comparison outcome,
merges the corresponding counter into the snapshot state (deferring
`unmatched` while retries remain), and builds the lazy failure message. -/
def checkResult (skipReporting : Bool) (timesCalled : Ledger) (retryTimes : Nat)
    (snapshotIdentifier : String)
    (colors dumpDiffToConsole dumpInlineDiffToConsole allowSizeMismatch : Bool)
    (result : ComparisonResult) (snapshotState : RunState) : CheckOutcome :=
  match result with
  | .updated =>
    ⟨updateSnapshotState skipReporting snapshotState
      (StatePatch.updated (snapshotState.updated + 1)), true, emptyMsg⟩
  | .added =>
    ⟨updateSnapshotState skipReporting snapshotState
      (StatePatch.added (snapshotState.added + 1)), true, emptyMsg⟩
  | .compared d =>
    if d.pass then
      ⟨updateSnapshotState skipReporting snapshotState
        (StatePatch.matched (snapshotState.matched + 1)), true, emptyMsg⟩
    else
      let currentRun := mapGet timesCalled snapshotIdentifier
      let st :=
        if retryTimes = 0 || jsOptGT currentRun retryTimes then
          updateSnapshotState skipReporting snapshotState
            (StatePatch.unmatched (snapshotState.unmatched + 1))
        else snapshotState
      ⟨st, false, fun w =>
        (failureMessage colors dumpDiffToConsole dumpInlineDiffToConsole
          allowSizeMismatch w.env d, w)⟩

/-! ### Identifier resolution (`createSnapshotIdentifier`, src lines 106–139) -/

/-- The `customSnapshotIdentifier` option: absent, a literal string, or a
resolver function taking `{testPath, currentTestName, counter, defaultIdentifier}`. -/
inductive CustomIdentifier where
  | none
  | literal (s : String)
  | fn (f : String → String → Option Nat → String → String)

/-- JS truthiness of the option (`""` is falsy, a function object is truthy). -/
def customTruthy : CustomIdentifier → Bool
  | .none => false
  | .literal s => !(s = "")
  | .fn _ => true

/-- The error message thrown on both retry-mode misconfigurations. -/
def retryIdError : String :=
  "A unique customSnapshotIdentifier must be set when jest.retryTimes() is used"

/-- `Map.set(id, (Map.get(id) || 0) + 1)` on the module-level `timesCalled`. -/
def ledgerIncr (timesCalled : Ledger) (id : String) : Ledger :=
  mapSet timesCalled id ((mapGet timesCalled id).getD 0 + 1)

/-- `createSnapshotIdentifier` (src lines 106–139).  Returns the resolved
identifier together with the updated `timesCalled` ledger, or the thrown
error.  Notes on fidelity:
* `counter` is `snapshotState._counters.get(currentTestName)` and may be
  `undefined`;
* `itTitle` is `currentTestName.split('...')[1]`, rendered `"undefined"` by the
  template literal when the delimiter is absent;
* with no truthy custom identifier the resolved name is `` `${itTitle}-snap` ``
  — the `defaultIdentifier` slug (file base name, full test name, counter) is
  only used as the fallback for a custom identifier *function* returning a
  falsy value;
* when `retryTimes` is truthy, a falsy `customSnapshotIdentifier` throws, and
  otherwise the ledger entry for the resolved identifier is incremented —
  uniqueness of the identifier across attempts is never checked. -/
def createSnapshotIdentifier (retryTimes : Nat) (testPath currentTestName : String)
    (customSnapshotIdentifier : CustomIdentifier) (counters : Ledger)
    (timesCalled : Ledger) : Except String (String × Ledger) :=
  let counter := mapGet counters currentTestName
  let dirName := jsSplit currentTestName "..."
  let itTitle := (dirName[1]?).getD "undefined"
  let defaultIdentifier :=
    kebabCase (basename testPath ++ "-" ++ currentTestName ++ "-" ++ jsShowOptNat counter)
  let finish : String → Except String (String × Ledger) := fun snapshotIdentifier =>
    if retryTimes ≠ 0 then
      if customTruthy customSnapshotIdentifier = false then Except.error retryIdError
      else Except.ok (snapshotIdentifier, ledgerIncr timesCalled snapshotIdentifier)
    else Except.ok (snapshotIdentifier, timesCalled)
  match customSnapshotIdentifier with
  | .fn f =>
    let customRes := f testPath currentTestName counter defaultIdentifier
    if retryTimes ≠ 0 && customRes = "" then Except.error retryIdError
    else finish (if customRes = "" then defaultIdentifier else customRes)
  | .literal s => finish (if s = "" then itTitle ++ "-snap" else s)
  | .none => finish (itTitle ++ "-snap")

/-! ### The matcher body (`configureToMatchImageSnapshot`, src lines 141–303) -/

/-- The argument object handed to the external image-diff engine
(`diffImageToSnapshot` / `runDiffImageToSnapshot`). -/
structure CompareArgs where
  receivedImageBuffer : String
  snapshotsDir : String
  storeReceivedOnFailure : Bool
  receivedDir : String
  receivedPostfix : String
  diffDir : String
  diffDirection : String
  onlyDiff : Bool
  snapshotIdentifier : String
  updateSnapshot : Bool
  customDiffConfig : List (String × String)
  failureThreshold : ℚ
  failureThresholdType : String
  updatePassedSnapshot : Bool
  blur : Nat
  allowSizeMismatch : Bool
  comparisonMethod : String

/-- The matcher configuration after the common (configure-time) layer and the
per-call override layer have been merged (per-call values win; the defaults
are the configure-time defaults of the source).  The claims under proof never
exercise a per-call override, so the two layers are folded into one effective
record. -/
structure MatcherConfig where
  customDiffConfig : List (String × String) := []
  customSnapshotIdentifier : CustomIdentifier := CustomIdentifier.none
  customSnapshotsDir : Option String := Option.none
  storeReceivedOnFailure : Bool := true
  customReceivedDir : Option String := Option.none
  customReceivedPostfix : String := "-received"
  customDiffDir : Option String := Option.none
  onlyDiff : Bool := false
  diffDirection : String := "horizontal"
  noColors : Option Bool := Option.none
  failureThreshold : ℚ := 0
  failureThresholdType : String := "pixel"
  updatePassedSnapshot : Bool := false
  blur : Nat := 0
  runInProcess : Bool := false
  dumpDiffToConsole : Bool := false
  dumpInlineDiffToConsole : Bool := false
  allowSizeMismatch : Bool := false
  comparisonMethod : String := "pixelmatch"

/-- The jest `this` context plus the process globals and external
collaborators a single matcher call observes. -/
structure MatcherCtx where
  testPath : String
  currentTestName : String
  isNot : Bool
  retryTimes : Nat
  skipReporting : Bool
  ambientColors : Bool
  viewAction : Bool
  updateAction : Bool
  compare : CompareArgs → FsState → ComparisonResult × FsState

/-- The verdict object returned to jest, plus the observable fact of whether
the interactive-review block (src lines 248–290) was entered. -/
structure MatcherOutput where
  pass : Bool
  message : World → String × World
  reviewEntered : Bool

def SNAPSHOTS_DIR : String := "__image_snapshots__"

def DIFF_DIR : String := "__diff_output"

def RECEIVED_DIR : String := "__received_snapshots__"

/-- `currentTestName.split('...')[0]` (always present). -/
def describeNameOf (currentTestName : String) : String :=
  (((jsSplit currentTestName "...")[0]?)).getD "undefined"

/-- The resolved snapshots directory (src line 209). -/
def snapshotsDirOf (cfg : MatcherConfig) (ctx : MatcherCtx) : String :=
  cfg.customSnapshotsDir.getD
    (pathJoin [dirname ctx.testPath, SNAPSHOTS_DIR, kebabCase (describeNameOf ctx.currentTestName)])

/-- The resolved received directory (src line 210). -/
def receivedDirOf (cfg : MatcherConfig) (ctx : MatcherCtx) : String :=
  cfg.customReceivedDir.getD
    (pathJoin [dirname ctx.testPath, RECEIVED_DIR, kebabCase (describeNameOf ctx.currentTestName)])

/-- The resolved diff directory (src line 211). -/
def diffDirOf (cfg : MatcherConfig) (ctx : MatcherCtx) : String :=
  cfg.customDiffDir.getD
    (pathJoin [dirname ctx.testPath, DIFF_DIR, kebabCase (describeNameOf ctx.currentTestName)])

/-- The `chalk` color level: forced by `noColors` when defined, else the
ambient auto-detected level. -/
def colorsOf (cfg : MatcherConfig) (ctx : MatcherCtx) : Bool :=
  match cfg.noColors with
  | some b => !b
  | Option.none => ctx.ambientColors

/-- The missing-baseline verdict message (src lines 219–221; the two JS string
literals concatenate, and the `"\n\n + This is likely"` text is literal). -/
def missingBaselineText (colors : Bool) : String :=
  "New snapshot was " ++ chalkBoldRed colors "not written" ++
  ". The update flag must be explicitly passed to write a new snapshot.\n\n + " ++
  "This is likely because this test is run in a continuous integration (CI) " ++
  "environment in which snapshots are not written by default.\n\n"

/-- The update-prompt step of the interactive review (src lines 284–289):
on a confirmed prompt the received artifact is renamed onto the baseline path
and the result is recast to `{updated: true}`; on decline/timeout the prompt
is stopped and nothing changes. -/
def reviewUpdateStep (updateAction : Bool) (result : ComparisonResult) (fs : FsState)
    (receivedPath baselineSnapshotPath : String) : ComparisonResult × FsState :=
  if updateAction then (ComparisonResult.updated, fsRename fs receivedPath baselineSnapshotPath)
  else (result, fs)

/-- The engine argument object built at src lines 227–246. -/
def mkCompareArgs (cfg : MatcherConfig) (received snapshotsDir receivedDir diffDir
    snapshotIdentifier : String) (updateSnapshot : Bool) : CompareArgs :=
  { receivedImageBuffer := received
    snapshotsDir := snapshotsDir
    storeReceivedOnFailure := cfg.storeReceivedOnFailure
    receivedDir := receivedDir
    receivedPostfix := cfg.customReceivedPostfix
    diffDir := diffDir
    diffDirection := cfg.diffDirection
    onlyDiff := cfg.onlyDiff
    snapshotIdentifier := snapshotIdentifier
    updateSnapshot := updateSnapshot
    customDiffConfig := cfg.customDiffConfig
    failureThreshold := cfg.failureThreshold
    failureThresholdType := cfg.failureThresholdType
    updatePassedSnapshot := cfg.updatePassedSnapshot
    blur := cfg.blur
    allowSizeMismatch := cfg.allowSizeMismatch
    comparisonMethod := cfg.comparisonMethod }

/-- The async matcher body returned by `configureToMatchImageSnapshot`
(src lines 162–302).  Faithful control flow:
1. `.not` usage throws;
2. the per-test invocation counter is recorded (line 197, with the `Map.set`
   aliasing of `recordInvocation`);
3. the identifier is resolved (may throw; increments the retry ledger);
4. with update mode `none` and no baseline file, an early failing verdict is
   returned;
5. the external engine runs;
6. the interactive-review block is entered iff the received-artifact path
   exists afterwards — the source spells the check `fs.syncExists`, which is
   not a function of Node's `fs` (`existsSync` is, and is what line 216 uses);
   it is modelled as the existence check the name transposes.  The
   notification, the console write, and the view prompt (`open` on confirm)
   have no observable effect in the model; the update prompt is
   `reviewUpdateStep`;
7. `checkResult` classifies the (possibly recast) result. -/
def toMatchImageSnapshot (cfg : MatcherConfig) (ctx : MatcherCtx) (received : String)
    (w : World) : Except String (MatcherOutput × World) :=
  let colors := colorsOf cfg ctx
  if ctx.isNot then
    Except.error "Jest: `.not` cannot be used with `.toMatchImageSnapshot()`."
  else
    let st1 := recordInvocation ctx.skipReporting w.snapshotState ctx.currentTestName
    match createSnapshotIdentifier ctx.retryTimes ctx.testPath ctx.currentTestName
        cfg.customSnapshotIdentifier st1.counters w.ledger with
    | Except.error e => Except.error e
    | Except.ok (snapshotIdentifier, ledger1) =>
      let snapshotsDir := snapshotsDirOf cfg ctx
      let receivedDir := receivedDirOf cfg ctx
      let diffDir := diffDirOf cfg ctx
      let baselineSnapshotPath := pathJoin [snapshotsDir, snapshotIdentifier ++ ".png"]
      let w1 : World := { w with snapshotState := st1, ledger := ledger1 }
      if st1.updateSnapshotMode = UpdateMode.none && !(fsExists w1.fs baselineSnapshotPath) then
        Except.ok ({ pass := false,
                     message := fun wm => (missingBaselineText colors, wm),
                     reviewEntered := false }, w1)
      else
        let compared := ctx.compare
          (mkCompareArgs cfg received snapshotsDir receivedDir diffDir snapshotIdentifier
            (st1.updateSnapshotMode = UpdateMode.all)) w1.fs
        let result := compared.1
        let fs2 := compared.2
        let receivedPath :=
          pathJoin [receivedDir, snapshotIdentifier ++ cfg.customReceivedPostfix ++ ".png"]
        if fsExists fs2 receivedPath then
          let stepped := reviewUpdateStep ctx.updateAction result fs2 receivedPath
            baselineSnapshotPath
          let co := checkResult ctx.skipReporting ledger1 ctx.retryTimes snapshotIdentifier
            colors cfg.dumpDiffToConsole cfg.dumpInlineDiffToConsole cfg.allowSizeMismatch
            stepped.1 st1
          Except.ok ({ pass := co.pass, message := co.message, reviewEntered := true },
            { w1 with snapshotState := co.state, fs := stepped.2 })
        else
          let co := checkResult ctx.skipReporting ledger1 ctx.retryTimes snapshotIdentifier
            colors cfg.dumpDiffToConsole cfg.dumpInlineDiffToConsole cfg.allowSizeMismatch
            result st1
          Except.ok ({ pass := co.pass, message := co.message, reviewEntered := false },
            { w1 with snapshotState := co.state, fs := fs2 })

/-- `configureToMatchImageSnapshot` (src line 141): builds the matcher from the
common configuration layer.  All matchers it produces resolve identifiers
through the same module-level `timesCalled` ledger, which the model threads as
the `World.ledger` component. -/
def configureToMatchImageSnapshot (common : MatcherConfig) :
    MatcherCtx → String → World → Except String (MatcherOutput × World) :=
  toMatchImageSnapshot common

/-! ### Helper lemmas -/

theorem mapGet_mapSet_self (l : Ledger) (k : String) (v : Nat) :
    mapGet (mapSet l k v) k = some v := by
  induction l with
  | nil => simp [mapGet, mapSet]
  | cons hd tl ih =>
    obtain ⟨k', v'⟩ := hd
    by_cases h : k' = k
    · subst h
      simp [mapGet, mapSet]
    · simp [mapGet, mapSet, h, ih]

theorem mapGet_mapSet_ne (l : Ledger) (k k' : String) (v : Nat) (h : k ≠ k') :
    mapGet (mapSet l k v) k' = mapGet l k' := by
  induction l with
  | nil => simp [mapGet, mapSet, h]
  | cons hd tl ih =>
    obtain ⟨a, b⟩ := hd
    by_cases ha : a = k
    · subst ha
      simp [mapGet, mapSet, h]
    · simp [mapGet, mapSet, ha, ih]

theorem ledgerIncr_getD_self (l : Ledger) (id : String) :
    (mapGet (ledgerIncr l id) id).getD 0 = (mapGet l id).getD 0 + 1 := by
  simp [ledgerIncr, mapGet_mapSet_self]

theorem ledgerIncr_mono (l : Ledger) (id k : String) :
    (mapGet l k).getD 0 ≤ (mapGet (ledgerIncr l id) k).getD 0 := by
  by_cases h : id = k
  · subst h
    simp [ledgerIncr, mapGet_mapSet_self]
  · simp [ledgerIncr, mapGet_mapSet_ne _ _ _ _ h]

/-- `recordInvocation` yields the same state whether or not reporting is
suppressed: the `Map.set` aliasing updates the counters map either way. -/
theorem recordInvocation_eq (b : Bool) (st : RunState) (name : String) :
    recordInvocation b st name =
      { st with counters :=
          mapSet st.counters name ((mapGet st.counters name).getD 0 + 1) } := by
  cases b <;> rfl

/-- Identifier resolution with no custom identifier and retries disabled. -/
theorem resolve_none_eq (tp tn : String) (c tc : Ledger) :
    createSnapshotIdentifier 0 tp tn CustomIdentifier.none c tc =
      Except.ok ((((jsSplit tn "...")[1]?)).getD "undefined" ++ "-snap", tc) := rfl

/-- Identifier resolution with a non-empty literal custom identifier. -/
theorem resolve_literal_eq (rt : Nat) (tp tn s : String) (c tc : Ledger) (hs : s ≠ "") :
    createSnapshotIdentifier rt tp tn (CustomIdentifier.literal s) c tc =
      if rt = 0 then Except.ok (s, tc) else Except.ok (s, ledgerIncr tc s) := by
  by_cases hrt : rt = 0 <;>
    simp [createSnapshotIdentifier, customTruthy, hs, hrt]

/-- On every successful resolution the new ledger is the old one, incremented
at the resolved identifier exactly when retries are active. -/
theorem resolve_ledger (rt : Nat) (tp tn : String) (cust : CustomIdentifier)
    (c tc : Ledger) (id : String) (tc' : Ledger)
    (h : createSnapshotIdentifier rt tp tn cust c tc = Except.ok (id, tc')) :
    tc' = if rt = 0 then tc else ledgerIncr tc id := by
  by_cases hrt : rt = 0
  · subst hrt
    cases cust with
    | none =>
      simp [createSnapshotIdentifier] at h
      simp [h.2]
    | literal s =>
      simp [createSnapshotIdentifier] at h
      simp [h.2]
    | fn f =>
      simp [createSnapshotIdentifier] at h
      simp [h.2]
  · cases cust with
    | none =>
      simp [createSnapshotIdentifier, customTruthy, hrt] at h
    | literal s =>
      by_cases hs : s = ""
      · simp [createSnapshotIdentifier, customTruthy, hrt, hs] at h
      · simp [createSnapshotIdentifier, customTruthy, hrt, hs] at h
        simp [hrt, ← h.1, h.2]
    | fn f =>
      by_cases hres : f tp tn (mapGet c tn) (kebabCase (basename tp ++ "-" ++ tn ++ "-" ++
          jsShowOptNat (mapGet c tn))) = ""
      · simp [createSnapshotIdentifier, customTruthy, hrt, hres] at h
      · simp [createSnapshotIdentifier, customTruthy, hrt, hres] at h
        simp [hrt, ← h.1, h.2]

/-- The ledger a matcher call leaves behind is exactly the one produced by
identifier resolution (no later step touches it). -/
theorem matcher_ledger_eq (cfg : MatcherConfig) (ctx : MatcherCtx) (received : String)
    (w : World) (hnot : ctx.isNot = false) :
    ((toMatchImageSnapshot cfg ctx received w).map fun ow => ow.2.ledger) =
      ((createSnapshotIdentifier ctx.retryTimes ctx.testPath ctx.currentTestName
          cfg.customSnapshotIdentifier
          (recordInvocation ctx.skipReporting w.snapshotState ctx.currentTestName).counters
          w.ledger).map fun p => p.2) := by
  simp only [toMatchImageSnapshot, hnot, Bool.false_eq_true, if_false]
  cases hres : createSnapshotIdentifier ctx.retryTimes ctx.testPath ctx.currentTestName
      cfg.customSnapshotIdentifier
      (recordInvocation ctx.skipReporting w.snapshotState ctx.currentTestName).counters
      w.ledger with
  | error e => rfl
  | ok pr =>
    obtain ⟨id, l1⟩ := pr
    dsimp only
    split
    · rfl
    · split <;> rfl

/-- A successful matcher call never decreases any ledger entry. -/
theorem matcher_ledger_mono (cfg : MatcherConfig) (ctx : MatcherCtx) (received : String)
    (w : World) (o : MatcherOutput) (w' : World)
    (h : toMatchImageSnapshot cfg ctx received w = Except.ok (o, w')) (k : String) :
    (mapGet w.ledger k).getD 0 ≤ (mapGet w'.ledger k).getD 0 := by
  by_cases hnot : ctx.isNot = true
  · simp [toMatchImageSnapshot, hnot] at h
  · have hnot' : ctx.isNot = false := by
      cases hcase : ctx.isNot
      · rfl
      · exact absurd hcase hnot
    have hled := matcher_ledger_eq cfg ctx received w hnot'
    rw [h] at hled
    cases hres : createSnapshotIdentifier ctx.retryTimes ctx.testPath ctx.currentTestName
        cfg.customSnapshotIdentifier
        (recordInvocation ctx.skipReporting w.snapshotState ctx.currentTestName).counters
        w.ledger with
    | error e => rw [hres] at hled; simp [Except.map] at hled
    | ok pr =>
      obtain ⟨id, l1⟩ := pr
      rw [hres] at hled
      simp [Except.map] at hled
      have := resolve_ledger _ _ _ _ _ _ _ _ hres
      rw [hled]
      rw [this]
      by_cases hrt : ctx.retryTimes = 0
      · simp [hrt]
      · simp [hrt]
        exact ledgerIncr_mono _ _ _

/-- "Message contains" closure lemmas for substring claims. -/
theorem listContains_nil_pat (s : List Char) : listContains s [] = true := by
  induction s with
  | nil => rfl
  | cons c rest ih => simp [listContains, List.isPrefixOf, ih]

theorem isPrefixOf_self_append (l t : List Char) : l.isPrefixOf (l ++ t) = true := by
  induction l with
  | nil => simp
  | cons c rest ih => simp [ih]

theorem isPrefixOf_self (l : List Char) : l.isPrefixOf l = true := by
  have h := isPrefixOf_self_append l []
  rwa [List.append_nil] at h

theorem isPrefixOf_extend (p : List Char) : ∀ (s t : List Char),
    p.isPrefixOf s = true → p.isPrefixOf (s ++ t) = true := by
  induction p with
  | nil => intro s t _; simp
  | cons a ps ih =>
    intro s t h
    cases s with
    | nil => simp [List.isPrefixOf] at h
    | cons b bs =>
      simp only [List.isPrefixOf, Bool.and_eq_true] at h
      simp only [List.cons_append, List.isPrefixOf, Bool.and_eq_true]
      exact ⟨h.1, ih bs t h.2⟩

theorem listContains_append_right (a b pat : List Char)
    (h : listContains b pat = true) : listContains (a ++ b) pat = true := by
  induction a with
  | nil => simpa using h
  | cons c rest ih => simp [listContains, ih]

theorem listContains_append_left (a b pat : List Char)
    (h : listContains a pat = true) : listContains (a ++ b) pat = true := by
  induction a with
  | nil =>
    simp only [listContains] at h
    cases pat with
    | nil => simpa using listContains_nil_pat b
    | cons c rest => simp [List.isEmpty] at h
  | cons c rest ih =>
    simp only [listContains, Bool.or_eq_true] at h
    rcases h with h | h
    · simp only [List.cons_append, listContains, Bool.or_eq_true]
      exact Or.inl (isPrefixOf_extend _ _ _ h)
    · simp only [List.cons_append, listContains, Bool.or_eq_true]
      exact Or.inr (ih h)

theorem listContains_self (pat : List Char) : listContains pat pat = true := by
  cases pat with
  | nil => rfl
  | cons c rest => simp [listContains, isPrefixOf_self]

theorem data_append_eq (a b : String) : (a ++ b).data = a.data ++ b.data := by
  cases a
  cases b
  rfl

theorem strContains_append_right (a b pat : String)
    (h : strContainsB b pat = true) : strContainsB (a ++ b) pat = true := by
  simp only [strContainsB, data_append_eq]
  exact listContains_append_right _ _ _ h

theorem strContains_append_left (a b pat : String)
    (h : strContainsB a pat = true) : strContainsB (a ++ b) pat = true := by
  simp only [strContainsB, data_append_eq]
  exact listContains_append_left _ _ _ h

theorem strContains_self (pat : String) : strContainsB pat pat = true :=
  listContains_self pat.data

theorem chalkRed_contains (colors : Bool) (s : String) :
    strContainsB (chalkRed colors s) s = true := by
  cases colors with
  | false => exact strContains_self s
  | true =>
    simp only [chalkRed, if_true]
    exact strContains_append_left _ _ _
      (strContains_append_right _ _ _ (strContains_self s))

set_option maxRecDepth 8000 in
theorem missing_text_contains (b : Bool) :
    strContainsB (missingBaselineText b) "not written" = true ∧
      strContainsB (missingBaselineText b) "continuous integration" = true := by
  cases b <;> exact ⟨by decide, by decide⟩

/-! ### Shared sample data for concrete scenarios -/

/-- A fresh snapshot state with update mode `none` (the CI default). -/
def sampleState : RunState := ⟨0, 0, 0, 0, [], UpdateMode.none⟩

/-- An environment with no inline-image-capable terminal. -/
def sampleEnv : MsgEnv := ⟨Option.none, false⟩

/-- An engine oracle whose comparison always passes and writes nothing. -/
def passCompare : CompareArgs → FsState → ComparisonResult × FsState :=
  fun _ fs => (ComparisonResult.compared ⟨true, 0, 0, false, ⟨0, 0, 0, 0⟩, "", ""⟩, fs)

/-- A plain matcher call context: no `.not`, retries off, reporting on,
colors off, both prompts decline/time out. -/
def passCtx : MatcherCtx :=
  { testPath := "/r/t.js", currentTestName := "a...b", isNot := false, retryTimes := 0,
    skipReporting := false, ambientColors := false, viewAction := false,
    updateAction := false, compare := passCompare }

/-- A world where the baseline exists and a stale received artifact (left by
an earlier failing run) also exists. -/
def staleWorld : World :=
  ⟨sampleState, [],
    ["/r/__image_snapshots__/a/b-snap.png", "/r/__received_snapshots__/a/b-snap-received.png"],
    sampleEnv⟩

/-- A world with an empty file system: no baseline has ever been written. -/
def missingWorld : World := ⟨sampleState, [], [], sampleEnv⟩

/-! ### Claim theorems -/

/-- C1: for a failing `Compared` result (with reporting not suppressed), the
`unmatched` counter of the run state is left alone exactly while retries are
active (`retryTimes ≠ 0`) and the retry ledger's count for the resolved
identifier (`currentRun`) is at most `retryTimes`; once retries are disabled
(`retryTimes = 0`) or `currentRun > retryTimes`, it is incremented exactly
once.  An identifier absent from the ledger counts as `0` attempts (the
source's `undefined > retryTimes` is false, which under `retryTimes ≠ 0` also
leaves the counter alone). -/
theorem retry_defers_unmatched (timesCalled : Ledger) (retryTimes : Nat) (id : String)
    (colors dd ddi asm : Bool) (q : ℚ) (cnt : Nat) (ds : Bool) (dims : ImageDimensions)
    (p img : String) (st : RunState) :
    (checkResult false timesCalled retryTimes id colors dd ddi asm
        (ComparisonResult.compared ⟨false, q, cnt, ds, dims, p, img⟩) st).pass = false ∧
    (checkResult false timesCalled retryTimes id colors dd ddi asm
        (ComparisonResult.compared ⟨false, q, cnt, ds, dims, p, img⟩) st).state.unmatched =
      (if retryTimes ≠ 0 ∧ (mapGet timesCalled id).getD 0 ≤ retryTimes
       then st.unmatched else st.unmatched + 1) := by
  constructor
  · by_cases hcond : retryTimes = 0 || jsOptGT (mapGet timesCalled id) retryTimes <;>
      simp [checkResult, hcond]
  · by_cases hrt : retryTimes = 0
    · subst hrt
      simp [checkResult, updateSnapshotState, mergeState]
    · cases hget : mapGet timesCalled id with
      | none =>
        simp [checkResult, hget, jsOptGT, hrt, updateSnapshotState, mergeState]
      | some c =>
        by_cases hc : c > retryTimes
        · have hle : ¬ (c ≤ retryTimes) := by omega
          simp [checkResult, hget, jsOptGT, hrt, hc, hle, updateSnapshotState, mergeState]
        · have hle : c ≤ retryTimes := by omega
          simp [checkResult, hget, jsOptGT, hrt, hc, hle, updateSnapshotState, mergeState]

/-- C2 counterexample: with the suppress-reporting flag set, the
invocation-recording operation (line 197) still changes the run state — the
per-test invocation-counter map gains an entry — because `Map.set` executes
while the argument object is built, before the guard in
`updateSnapshotState`.  The claim, which asserts the per-test map is
unchanged, is therefore false on this input. -/
theorem skip_flag_counterexample :
    (recordInvocation true sampleState "test a").counters = [("test a", 1)] ∧
      recordInvocation true sampleState "test a" ≠ sampleState := by
  exact ⟨rfl, by decide⟩

/-- C2 amended: with the suppress-reporting flag set, the outcome-recording
operation (`checkResult`) leaves the run state entirely unchanged, and the
invocation-recording operation (line 197) leaves the four outcome counters
unchanged — but it still mutates the per-test invocation-counter map (the
`Map.set` aliasing happens before the guard). -/
theorem skip_flag_amended :
    (∀ (tc : Ledger) (rt : Nat) (id : String) (colors dd ddi asm : Bool)
        (result : ComparisonResult) (st : RunState),
      (checkResult true tc rt id colors dd ddi asm result st).state = st) ∧
    (∀ (st : RunState) (name : String),
      (recordInvocation true st name).matched = st.matched ∧
      (recordInvocation true st name).added = st.added ∧
      (recordInvocation true st name).updated = st.updated ∧
      (recordInvocation true st name).unmatched = st.unmatched ∧
      (recordInvocation true st name).counters =
        mapSet st.counters name ((mapGet st.counters name).getD 0 + 1)) := by
  constructor
  · intro tc rt id colors dd ddi asm result st
    rcases result with _ | _ | d
    · rfl
    · rfl
    · by_cases hp : d.pass <;>
        by_cases hcond : rt = 0 || jsOptGT (mapGet tc id) rt <;>
        simp [checkResult, hp, hcond, updateSnapshotState]
  · intro st name
    exact ⟨rfl, rfl, rfl, rfl, rfl⟩

/-- C3 counterexample: with no custom identifier (and retries disabled), the
identifier is `` `${itTitle}-snap` ``.  Two invocations of the same test with
distinct invocation counters (1 and 2), and a test with the same leaf title
under a different describe prefix, all resolve to the identical identifier
`"draws box-snap"`, so the identifier is neither counter-dependent nor unique
per (test name, invocation) — the claim is false on these inputs. -/
theorem default_identifier_counterexample :
    createSnapshotIdentifier 0 "/r/file.test.js" "suite one...draws box"
        CustomIdentifier.none [("suite one...draws box", 1)] [] =
      Except.ok ("draws box-snap", []) ∧
    createSnapshotIdentifier 0 "/r/file.test.js" "suite one...draws box"
        CustomIdentifier.none [("suite one...draws box", 2)] [] =
      Except.ok ("draws box-snap", []) ∧
    createSnapshotIdentifier 0 "/r/file.test.js" "suite two...draws box"
        CustomIdentifier.none [("suite two...draws box", 1)] [] =
      Except.ok ("draws box-snap", []) := by
  exact ⟨rfl, rfl, rfl⟩

/-- C3 amended: with no custom identifier and retries disabled, the resolved
identifier is deterministic in the test identity, but it is exactly
`` `${itTitle}-snap` `` — the segment of `currentTestName` after the `"..."`
delimiter (or `"undefined"` if absent), suffixed `"-snap"` — independent of
the invocation counter and of the describe prefix, hence NOT unique per
(test name, invocation). -/
theorem default_identifier_amended (testPath currentTestName : String)
    (counters timesCalled : Ledger) :
    createSnapshotIdentifier 0 testPath currentTestName CustomIdentifier.none
        counters timesCalled =
      Except.ok ((((jsSplit currentTestName "...")[1]?)).getD "undefined" ++ "-snap",
        timesCalled) :=
  resolve_none_eq testPath currentTestName counters timesCalled

/-- C4 counterexample: retries are active (`retryTimes = 1`), the literal
custom identifier `"foo"` has already been attempted once (ledger entry 1),
so the supplied identifier is NOT unique per attempt — yet resolution
succeeds (and merely bumps the ledger) instead of throwing the configuration
error the claim requires. -/
theorem retry_uniqueness_counterexample :
    createSnapshotIdentifier 1 "/r/file.test.js" "a...b"
        (CustomIdentifier.literal "foo") [("a...b", 2)] [("foo", 1)] =
      Except.ok ("foo", [("foo", 2)]) := by
  exact rfl

/-- C4 amended: under retries (`retryTimes ≥ 1`) resolution throws the
configuration error exactly when no truthy custom identifier is supplied
(absent, or the falsy literal `""`) or a custom identifier function returns
the empty string; a non-empty literal always resolves — uniqueness per
attempt is never checked, the ledger entry is merely incremented.  With
`retryTimes = 0`, a custom identifier function returning `""` falls back to
the default slug (base file name, full test name, invocation counter) without
error. -/
theorem retry_identifier_amended :
    (∀ (r : Nat) (tp tn : String) (c tc : Ledger),
      createSnapshotIdentifier (r + 1) tp tn CustomIdentifier.none c tc =
        Except.error retryIdError) ∧
    (∀ (r : Nat) (tp tn : String) (c tc : Ledger),
      createSnapshotIdentifier (r + 1) tp tn (CustomIdentifier.literal "") c tc =
        Except.error retryIdError) ∧
    (∀ (r : Nat) (tp tn : String) (c tc : Ledger),
      createSnapshotIdentifier (r + 1) tp tn
          (CustomIdentifier.fn (fun _ _ _ _ => "")) c tc =
        Except.error retryIdError) ∧
    (∀ (r : Nat) (tp tn s : String) (c tc : Ledger), s ≠ "" →
      createSnapshotIdentifier (r + 1) tp tn (CustomIdentifier.literal s) c tc =
        Except.ok (s, ledgerIncr tc s)) ∧
    (∀ (tp tn : String) (c tc : Ledger),
      createSnapshotIdentifier 0 tp tn (CustomIdentifier.fn (fun _ _ _ _ => "")) c tc =
        Except.ok (kebabCase (basename tp ++ "-" ++ tn ++ "-" ++
          jsShowOptNat (mapGet c tn)), tc)) := by
  refine ⟨fun r tp tn c tc => rfl, fun r tp tn c tc => rfl, fun r tp tn c tc => rfl,
    fun r tp tn s c tc hs => ?_, fun tp tn c tc => rfl⟩
  have h := resolve_literal_eq (r + 1) tp tn s c tc hs
  simpa using h

/-- C4 witness: the amended claim's non-empty-literal conjunct at a concrete
input. -/
theorem retry_identifier_witness :
    ("foo" : String) ≠ "" ∧
      createSnapshotIdentifier 1 "/p/t.js" "a...b" (CustomIdentifier.literal "foo") [] [] =
        Except.ok ("foo", ledgerIncr [] "foo") :=
  ⟨by decide, retry_identifier_amended.2.2.2.1 0 "/p/t.js" "a...b" "foo" [] [] (by decide)⟩

set_option maxRecDepth 100000 in
/-- C5 (code-bug exhibit): the interactive review workflow is entered after a
PASSING comparison whenever a (stale) received artifact exists at the
received path — the guard at line 248 checks only file existence, never that
the comparison failed.  Here the engine reports `pass: true`, a stale
received artifact is on disk, and the matcher still enters the review block
(`reviewEntered = true`) while returning a passing verdict.  (At runtime the
guard is spelled `fs.syncExists`, which is not a function of Node's `fs`
module — line 216 correctly uses `fs.existsSync` — so the call would in fact
throw a `TypeError`; the model reads it as the existence check the name
transposes.) -/
theorem review_entered_after_pass :
    ((toMatchImageSnapshot {} passCtx "img" staleWorld).map
      fun ow => (ow.1.pass, ow.1.reviewEntered)) = Except.ok (true, true) := rfl

/-- C6: in the update-prompt race (lines 284–289 plus `checkResult`), a
confirmed prompt renames the received artifact onto the baseline path and
recasts the result to `Updated`, after which `checkResult` yields a passing
verdict with an empty message, increments `updated` by one and leaves
`unmatched` alone; a declined or timed-out prompt leaves the original result
and the file system untouched. -/
theorem update_prompt_race (timesCalled : Ledger) (retryTimes : Nat) (id : String)
    (colors dd ddi asm : Bool) (r : ComparisonResult) (fs : FsState)
    (receivedPath baselineSnapshotPath : String) (st : RunState) :
    (reviewUpdateStep true r fs receivedPath baselineSnapshotPath =
        (ComparisonResult.updated, fsRename fs receivedPath baselineSnapshotPath) ∧
      (checkResult false timesCalled retryTimes id colors dd ddi asm
          ComparisonResult.updated st).pass = true ∧
      (checkResult false timesCalled retryTimes id colors dd ddi asm
          ComparisonResult.updated st).state.updated = st.updated + 1 ∧
      (checkResult false timesCalled retryTimes id colors dd ddi asm
          ComparisonResult.updated st).state.unmatched = st.unmatched ∧
      (checkResult false timesCalled retryTimes id colors dd ddi asm
          ComparisonResult.updated st).message = emptyMsg) ∧
    reviewUpdateStep false r fs receivedPath baselineSnapshotPath = (r, fs) :=
  ⟨⟨rfl, rfl, rfl, rfl, rfl⟩, rfl⟩

set_option maxRecDepth 100000 in
/-- C7 counterexample: update mode `none`, no baseline on disk.  The verdict
is `pass: false` and the message contains "not written" and "continuous
integration" — but the run state is NOT left unchanged: the per-test
invocation counter map gains the entry `("a...b", 1)` because line 197 runs
before the missing-baseline check.  The claim's "RunState is left unchanged
by the call" is therefore false on this input. -/
theorem missing_baseline_counterexample :
    ((toMatchImageSnapshot {} passCtx "img" missingWorld).map
      fun ow => (ow.1.pass, ow.2.snapshotState.counters,
        strContainsB ((ow.1.message ow.2).1) "not written",
        strContainsB ((ow.1.message ow.2).1) "continuous integration")) =
      Except.ok (false, [("a...b", 1)], true, true) ∧
    ([("a...b", 1)] : Ledger) ≠ missingWorld.snapshotState.counters :=
  ⟨rfl, by decide⟩

/-- C7 amended: when update mode is `none` and no baseline file exists for
the resolved identifier, the matcher returns a failing verdict (not a thrown
error) whose message contains "not written" and "continuous integration";
the four outcome counters, the retry ledger and the file system are left
unchanged — but the per-test invocation counter is incremented by one, since
the invocation is recorded before the baseline check. -/
theorem missing_baseline_amended (cfg : MatcherConfig) (ctx : MatcherCtx)
    (received : String) (w : World)
    (hnot : ctx.isNot = false)
    (hrt : ctx.retryTimes = 0)
    (hcust : cfg.customSnapshotIdentifier = CustomIdentifier.none)
    (hmode : w.snapshotState.updateSnapshotMode = UpdateMode.none)
    (hmiss : fsExists w.fs (pathJoin [snapshotsDirOf cfg ctx,
        ((((jsSplit ctx.currentTestName "...")[1]?)).getD "undefined" ++ "-snap") ++ ".png"]) =
      false) :
    ((toMatchImageSnapshot cfg ctx received w).map
      fun ow => (ow.1.pass, ow.2.snapshotState.matched, ow.2.snapshotState.added,
        ow.2.snapshotState.updated, ow.2.snapshotState.unmatched,
        ow.2.snapshotState.counters, ow.2.ledger, ow.2.fs)) =
      Except.ok (false, w.snapshotState.matched, w.snapshotState.added,
        w.snapshotState.updated, w.snapshotState.unmatched,
        mapSet w.snapshotState.counters ctx.currentTestName
          ((mapGet w.snapshotState.counters ctx.currentTestName).getD 0 + 1),
        w.ledger, w.fs) ∧
    ((toMatchImageSnapshot cfg ctx received w).map
      fun ow => (strContainsB ((ow.1.message w).1) "not written",
        strContainsB ((ow.1.message w).1) "continuous integration")) =
      Except.ok (true, true) := by
  have hrec := recordInvocation_eq ctx.skipReporting w.snapshotState ctx.currentTestName
  constructor
  · simp only [toMatchImageSnapshot, hnot, Bool.false_eq_true, if_false, hrt, hcust, hrec,
      resolve_none_eq]
    simp [hmode, hmiss]
    rfl
  · simp only [toMatchImageSnapshot, hnot, Bool.false_eq_true, if_false, hrt, hcust, hrec,
      resolve_none_eq]
    simp [hmode, hmiss, Except.map]
    rw [(missing_text_contains (colorsOf cfg ctx)).1,
      (missing_text_contains (colorsOf cfg ctx)).2]
    exact ⟨rfl, rfl⟩

/-- C7 witness: the amended claim applied at the concrete missing-baseline
scenario. -/
theorem missing_baseline_witness :
    ((toMatchImageSnapshot {} passCtx "img" missingWorld).map
      fun ow => (ow.1.pass, ow.2.snapshotState.matched, ow.2.snapshotState.added,
        ow.2.snapshotState.updated, ow.2.snapshotState.unmatched,
        ow.2.snapshotState.counters, ow.2.ledger, ow.2.fs)) =
      Except.ok (false, missingWorld.snapshotState.matched, missingWorld.snapshotState.added,
        missingWorld.snapshotState.updated, missingWorld.snapshotState.unmatched,
        mapSet missingWorld.snapshotState.counters passCtx.currentTestName
          ((mapGet missingWorld.snapshotState.counters passCtx.currentTestName).getD 0 + 1),
        missingWorld.ledger, missingWorld.fs) :=
  (missing_baseline_amended {} passCtx "img" missingWorld rfl rfl rfl rfl rfl).1

set_option maxRecDepth 100000 in
/-- C8: for a failing `Compared` result (console-dump flags off), the rendered
message is the dimension-mismatch text quoting both width×height pairs when
`diffSize` is set and `allowSizeMismatch` is not, else the percentage text
built from `diffRatio * 100` with the differing-pixel count; in both cases it
ends with a pointer to `diffOutputPath`.  Concretely, `diffRatio = 0.023` and
`diffPixelCount = 45` render "2.3% different" and "45 differing pixels", and
a size mismatch with dimensions 100×200 vs 300×400 quotes both pairs. -/
theorem failure_message_format :
    (∀ (tc : Ledger) (rt : Nat) (id : String) (colors asm : Bool) (q : ℚ) (cnt : Nat)
        (ds : Bool) (dims : ImageDimensions) (p img : String) (st : RunState) (w : World),
      ((checkResult false tc rt id colors false false asm
          (ComparisonResult.compared ⟨false, q, cnt, ds, dims, p, img⟩) st).message w).1 =
        (if ds && !asm then
          "Expected image to be the same size as the snapshot (" ++
            toString dims.baselineWidth ++ "x" ++ toString dims.baselineHeight ++
            "), but was different (" ++ toString dims.receivedWidth ++ "x" ++
            toString dims.receivedHeight ++ ").\n"
         else
          "Expected image to match or be a close match to snapshot but was " ++
            decStr (q * 100) ++ "% different from snapshot (" ++ toString cnt ++
            " differing pixels).\n") ++
        chalkBoldRed colors "See diff for details:" ++ " " ++ chalkRed colors p) ∧
    (∀ (tc : Ledger) (rt : Nat) (id : String) (colors asm : Bool) (q : ℚ) (cnt : Nat)
        (ds : Bool) (dims : ImageDimensions) (p img : String) (st : RunState) (w : World),
      strContainsB (((checkResult false tc rt id colors false false asm
          (ComparisonResult.compared ⟨false, q, cnt, ds, dims, p, img⟩) st).message w).1)
        p = true) ∧
    strContainsB (((checkResult false [] 0 "id" false false false false
        (ComparisonResult.compared
          ⟨false, 23 / 1000, 45, false, ⟨1, 2, 3, 4⟩, "/diff/out.png", "img"⟩)
        sampleState).message missingWorld).1) "2.3% different" = true ∧
    strContainsB (((checkResult false [] 0 "id" false false false false
        (ComparisonResult.compared
          ⟨false, 23 / 1000, 45, false, ⟨1, 2, 3, 4⟩, "/diff/out.png", "img"⟩)
        sampleState).message missingWorld).1) "45 differing pixels" = true ∧
    strContainsB (((checkResult false [] 0 "id" false false false false
        (ComparisonResult.compared
          ⟨false, 23 / 1000, 45, true, ⟨100, 200, 300, 400⟩, "/diff/out.png", "img"⟩)
        sampleState).message missingWorld).1) "(100x200)" = true ∧
    strContainsB (((checkResult false [] 0 "id" false false false false
        (ComparisonResult.compared
          ⟨false, 23 / 1000, 45, true, ⟨100, 200, 300, 400⟩, "/diff/out.png", "img"⟩)
        sampleState).message missingWorld).1) "(300x400)" = true := by
  have h1 : ∀ (tc : Ledger) (rt : Nat) (id : String) (colors asm : Bool) (q : ℚ) (cnt : Nat)
      (ds : Bool) (dims : ImageDimensions) (p img : String) (st : RunState) (w : World),
      ((checkResult false tc rt id colors false false asm
          (ComparisonResult.compared ⟨false, q, cnt, ds, dims, p, img⟩) st).message w).1 =
        (if ds && !asm then
          "Expected image to be the same size as the snapshot (" ++
            toString dims.baselineWidth ++ "x" ++ toString dims.baselineHeight ++
            "), but was different (" ++ toString dims.receivedWidth ++ "x" ++
            toString dims.receivedHeight ++ ").\n"
         else
          "Expected image to match or be a close match to snapshot but was " ++
            decStr (q * 100) ++ "% different from snapshot (" ++ toString cnt ++
            " differing pixels).\n") ++
        chalkBoldRed colors "See diff for details:" ++ " " ++ chalkRed colors p :=
    fun _ _ _ _ _ _ _ _ _ _ _ _ _ => rfl
  refine ⟨h1, ?_, by with_unfolding_all rfl, by with_unfolding_all rfl,
    by with_unfolding_all rfl, by with_unfolding_all rfl⟩
  intro tc rt id colors asm q cnt ds dims p img st w
  rw [h1 tc rt id colors asm q cnt ds dims p img st w]
  exact strContains_append_right _ _ _ (chalkRed_contains colors p)

/-- C9: the message closure produced by `checkResult` is a pure state
transformer: invoking it leaves the observable program state unchanged, and
invoking it again (on the state it returned) yields the identical string.
This holds for every result shape, in particular for every failing verdict. -/
theorem message_closure_pure (skip : Bool) (tc : Ledger) (rt : Nat) (id : String)
    (colors dd ddi asm : Bool) (result : ComparisonResult) (st : RunState) (w : World) :
    ((checkResult skip tc rt id colors dd ddi asm result st).message w).2 = w ∧
    ((checkResult skip tc rt id colors dd ddi asm result st).message w).1 =
      ((checkResult skip tc rt id colors dd ddi asm result st).message
        (((checkResult skip tc rt id colors dd ddi asm result st).message w).2)).1 := by
  rcases result with _ | _ | d
  · exact ⟨rfl, rfl⟩
  · exact ⟨rfl, rfl⟩
  · cases hp : d.pass <;> simp [checkResult, hp, emptyMsg]

/-- C10: the `timesCalled` retry ledger is only ever incremented: a successful
resolution never decreases any entry, bumps the resolved identifier's entry by
exactly one whenever retries are active, and leaves the ledger untouched when
they are not; the ledger a matcher call produces is independent of the
suppress-reporting flag (the flag guards only run-state merges); and matcher
calls produced by different `configureToMatchImageSnapshot` configurations
thread the same ledger, whose entries never decrease across consecutive
calls. -/
theorem retry_ledger_invariant :
    (∀ (rt : Nat) (tp tn : String) (cust : CustomIdentifier) (c tc : Ledger)
        (id : String) (tc' : Ledger),
      createSnapshotIdentifier rt tp tn cust c tc = Except.ok (id, tc') →
      (∀ k, (mapGet tc k).getD 0 ≤ (mapGet tc' k).getD 0) ∧
      (rt ≠ 0 → mapGet tc' id = some ((mapGet tc id).getD 0 + 1)) ∧
      (rt = 0 → tc' = tc)) ∧
    (∀ (cfg : MatcherConfig) (ctx : MatcherCtx) (received : String) (w : World) (b : Bool),
      ((toMatchImageSnapshot cfg { ctx with skipReporting := b } received w).map
        fun ow => ow.2.ledger) =
      ((toMatchImageSnapshot cfg ctx received w).map fun ow => ow.2.ledger)) ∧
    (∀ (c1 c2 : MatcherConfig) (ctx1 ctx2 : MatcherCtx) (r1 r2 : String) (w : World)
        (o1 o2 : MatcherOutput) (w1 w2 : World) (k : String),
      configureToMatchImageSnapshot c1 ctx1 r1 w = Except.ok (o1, w1) →
      configureToMatchImageSnapshot c2 ctx2 r2 w1 = Except.ok (o2, w2) →
      (mapGet w.ledger k).getD 0 ≤ (mapGet w2.ledger k).getD 0) := by
  refine ⟨?_, ?_, ?_⟩
  · intro rt tp tn cust c tc id tc' h
    have hl := resolve_ledger rt tp tn cust c tc id tc' h
    refine ⟨?_, ?_, ?_⟩
    · intro k
      rw [hl]
      by_cases hrt : rt = 0
      · simp [hrt]
      · simp only [hrt, if_false]
        exact ledgerIncr_mono tc id k
    · intro hrt
      rw [hl]
      simp only [hrt, if_false]
      exact mapGet_mapSet_self tc id _
    · intro hrt
      rw [hl]
      simp [hrt]
  · intro cfg ctx received w b
    by_cases hnot : ctx.isNot = true
    · simp [toMatchImageSnapshot, hnot]
    · have hnot' : ctx.isNot = false := by
        revert hnot
        cases ctx.isNot <;> simp
      rw [matcher_ledger_eq cfg { ctx with skipReporting := b } received w hnot',
        matcher_ledger_eq cfg ctx received w hnot']
      simp [recordInvocation_eq]
  · intro c1 c2 ctx1 ctx2 r1 r2 w o1 o2 w1 w2 k h1 h2
    exact le_trans (matcher_ledger_mono c1 ctx1 r1 w o1 w1 h1 k)
      (matcher_ledger_mono c2 ctx2 r2 w1 o2 w2 h2 k)

/-- C10 witness: the resolution conjunct of the ledger invariant at a
concrete retried resolution. -/
theorem retry_ledger_witness :
    createSnapshotIdentifier 1 "/p/t.js" "a...b" (CustomIdentifier.literal "bar") [] [] =
      Except.ok ("bar", [("bar", 1)]) ∧
    mapGet [("bar", 1)] "bar" = some ((mapGet ([] : Ledger) "bar").getD 0 + 1) :=
  ⟨rfl, (retry_ledger_invariant.1 1 "/p/t.js" "a...b" (CustomIdentifier.literal "bar")
      [] [] "bar" [("bar", 1)] rfl).2.1 (by decide)⟩

end ImageSnapshot
